import Mathlib

/-!
Verification of the Diolex mock-interview backend against its specification.

The definitions below are a shallow embedding of the Python sources:

* `src/backend/app/agent/interview_agent.py` (`InterviewAgent`: manual history,
  `get_last_n_messages`, `get_formatted_history`, `send_message_agent`),
* `src/backend/app/agent/prompt.py` (`interview_system_prompt`),
* `src/backend/app/agent/feedback_agent.py` (`FeedbackAgent`),
* `src/backend/app/websockets/ws.py` (`handle_speech_message`,
  `handle_chat_message`, the receive loop of `websocket_endpoint`),
* `src/backend/app/agent/tts_service.py` (`speak` / `stop_audio`, abstracted
  to a chunk-level interleaving model of the playback threads).

The external Gemini model client is treated as an oracle
`String → Except String String` mapping the message actually sent to either a
reply text (`ok`) or the message of a raised exception (`error`).  Wall-clock
timestamps (`datetime.now().isoformat()`) are threaded as an explicit `now`
argument.  Network transport (`await manager.send_personal_message`) is
recorded as a list of outbound events.
-/

/-- ASCII whitespace recognised by Python `str.strip()`. -/
def pyIsSpace (c : Char) : Bool :=
  c = ' ' ∨ c = '\t' ∨ c = '\n' ∨ c = '\r' ∨ c = '\x0b' ∨ c = '\x0c'

/-- Python `str.strip()` (no argument): drop leading and trailing whitespace. -/
def pyStrip (s : String) : String :=
  String.mk (((s.data.dropWhile pyIsSpace).reverse.dropWhile pyIsSpace).reverse)

/-- Python `str.upper()` on the ASCII strings this program manipulates. -/
def pyUpper (s : String) : String :=
  String.mk (s.data.map Char.toUpper)

/-- Replace every occurrence of `pat` in the subject by `repl`, scanning left
to right; `fuel` (instantiated with the subject length) makes the recursion
structural.  This is Python `str.replace`, the effect of `str.format` for one
placeholder. -/
def pyReplaceAux (pat repl : List Char) : Nat → List Char → List Char
  | _, [] => []
  | 0, s => s
  | fuel + 1, c :: rest =>
    if pat.isPrefixOf (c :: rest) then
      repl ++ pyReplaceAux pat repl fuel ((c :: rest).drop pat.length)
    else
      c :: pyReplaceAux pat repl fuel rest

/-- Python `template.format(key=value)` for a template whose only braces are
the `\x7bkey\x7d` placeholders: replace each occurrence by `value`. -/
def pyFormat (template key value : String) : String :=
  String.mk (pyReplaceAux ("\x7b" ++ key ++ "\x7d").data value.data
    template.data.length template.data)

/-- One entry of `InterviewAgent.history` (a Python dict).  User entries carry
a `"user_code"` key, the error entries appended on exception carry a
`"timestamp"` key; `Option` models key presence. -/
structure Msg where
  role : String
  content : String
  user_code : Option String := none
  timestamp : Option String := none
deriving DecidableEq, Repr

/-- Python list slice `l[-n:]`.  Note that for `n = 0` the slice `l[-0:]` is
`l[0:]`, i.e. the whole list. -/
def pyTailSlice (l : List Msg) (n : Nat) : List Msg :=
  if n = 0 then l else l.drop (l.length - n)

/-- `InterviewAgent.get_last_n_messages`:
`self.history[-n:] if n <= len(self.history) else self.history.copy()`. -/
def get_last_n_messages (history : List Msg) (n : Nat) : List Msg :=
  if n ≤ history.length then pyTailSlice history n else history

/-- The body of the `for msg in self.history` loop of
`InterviewAgent.get_formatted_history`: the rendered block for one message,
or `none` when the stripped content is empty and the message is skipped. -/
def formatTurn (msg : Msg) : Option String :=
  let role := pyUpper msg.role
  let content := pyStrip msg.content
  if content = "" then none
  else if role = "USER" ∧ msg.user_code.isSome then
    let user_code := pyStrip (msg.user_code.getD "")
    if user_code ≠ "" ∧ user_code ≠ "No code provided yet." then
      some (role ++ ": " ++ content ++ "\n\nUser Code Context:\n" ++ user_code)
    else
      some (role ++ ": " ++ content)
  else
    some (role ++ ": " ++ content)

/-- `InterviewAgent.get_formatted_history`: renders the manual history as
blocks joined by `"\n\n"`, returning `""` for an empty history. -/
def get_formatted_history (history : List Msg) : String :=
  if history = [] then ""
  else String.intercalate "\n\n" (history.filterMap formatTurn)

/-- The fixed closing sentence the END state directs the model to repeat
(`src/backend/app/agent/prompt.py`, state 6). -/
def closingString : String := "The interview has concluded. Thank you."

/-- The END instruction sentence of the system prompt: after the closing
speech, the model must answer every further input with `closingString`. -/
def endInstruction : String :=
  "Then respond only: \"" ++ closingString ++ "\" to any further input."

/-- The part of `interview_system_prompt` before `endInstruction`. -/
def promptPre : String :=
  "\nYou are a technical programming interviewer. Guide the candidate through this problem:\n\n{problem}\n\nSTATES & TRANSITIONS:\n\n1. PRESENT → Output ONLY the core problem statement (1-2 sentences max). No examples, constraints, or follow-up. → Go to CLARIFY.\n\n2. CLARIFY → Answer only what\x27s asked. If they start coding → Go to CODING.\n\n3. CODING → Answer questions briefly. If they say \"done\" or ask for review → Go to REVIEW.\n\n4. REVIEW → Ask: \"Walk me through your solution. What\x27s the time and space complexity?\" → Go to FOLLOWUP.\n\n5. FOLLOWUP → Ask one follow-up question (\"Here\x27s a follow-up question. What would be different if you were to use O(1) space and how would this affect the time complexity?\") Only proceed to END when they give a reasonable, correct approach. If answer is wrong/incomplete, guide them: \"Can you think about this differently?\" or \"What about [concept]?\" Stay in FOLLOWUP until they demonstrate understanding.\n\n6. END → Say: \"Great, that\x27s a good way to think about it. Thank you for your time; that\x27s all the questions I have for today.\" "

/-- The part of `interview_system_prompt` after `endInstruction`. -/
def promptPost : String :=
  "\n\nRULES:\n- Keep responses to 1-2 sentences max\n- If they ask about critical errors in the code, provide a SHORT nudge in what the error may be, don\x27t be too specific.\n- Plain text only, no formatting\n- Give hints only when explicitly asked: \"I\x27m stuck\" or \"hint\", OR when follow-up answer is incorrect\n- Acknowledge with \"Okay\" or \"Makes sense\" when they\x27re thinking aloud\n- Never volunteer extra information unless asked\n- Never provide code in any circumstance\n"

/-- `interview_system_prompt` from `src/backend/app/agent/prompt.py`, with the
`\x7bproblem\x7d` placeholder still unfilled. -/
def interview_system_prompt : String := promptPre ++ endInstruction ++ promptPost

/-- The mutable fields of Python class `InterviewAgent`.  `chat_session`
records whether `self.chat_session` is a live session object (`true`) or still
`None`; `system_instruction` is `none` until `update_problem` first assigns
the attribute.  The Gemini client itself is external. -/
structure AgentState where
  history : List Msg
  user_code : String
  problem_description : String
  system_instruction : Option String
  chat_session : Bool
deriving DecidableEq, Repr

/-- `InterviewAgent.__init__`. -/
def initialAgent : AgentState :=
  { history := []
    user_code := "No code provided yet."
    problem_description := "No problem provided"
    system_instruction := none
    chat_session := false }

/-- `InterviewAgent.update_problem`: takes the description field of
`problem_data` (or the default "No problem provided"), formats the system
prompt with it and (re)creates the chat session. -/
def update_problem (st : AgentState) (description : Option String) : AgentState :=
  let desc := description.getD "No problem provided"
  { st with
    problem_description := desc
    system_instruction := some (pyFormat interview_system_prompt "problem" desc)
    chat_session := true }

/-- The `if self.chat_session is None: self.update_problem({"description":
"No problem provided yet"})` guard at the top of `send_message_agent`. -/
def ensureSession (st : AgentState) : AgentState :=
  if st.chat_session then st else update_problem st (some "No problem provided yet")

/-- The temporary history mutation inside `send_message_agent`: copy the full
history aside, set `self.history` to the recent slice, format it, then restore
the full history.  Returns the restored state and the formatted string. -/
def tempFormatRecent (st : AgentState) : AgentState × String :=
  let original_history := st.history
  let recent_history := get_last_n_messages st.history 5
  let stSwapped := { st with history := recent_history }
  let chat_history := get_formatted_history stSwapped.history
  let stRestored := { stSwapped with history := original_history }
  (stRestored, chat_history)

/-- The `context_parts` list built by `send_message_agent`: the formatted
recent conversation (when the history, the recent slice and the rendering are
all non-empty) and the current user code (when non-empty and, after
stripping, not the sentinel). -/
def contextParts (st : AgentState) (user_code : String) : List String :=
  (if st.history ≠ [] then
     let recent_history := get_last_n_messages st.history 5
     if recent_history ≠ [] then
       let chat_history := (tempFormatRecent st).2
       if chat_history ≠ "" then ["Previous Conversation:\n" ++ chat_history] else []
     else []
   else [])
  ++ (if user_code ≠ "" ∧ pyStrip user_code ≠ "No code provided yet." then
        ["Current User Code:\n" ++ user_code]
      else [])

/-- The `full_message` finally passed to `chat_session.send_message`. -/
def buildFullMessage (st : AgentState) (message user_code : String) : String :=
  let context_parts := contextParts st user_code
  if context_parts ≠ [] then
    message ++ "\n\n" ++ String.intercalate "\n\n" context_parts
  else message

/-- `InterviewAgent.send_message_agent`.  `model` is the external Gemini chat
session: it maps the sent message to the reply text (`ok`) or to the message
of a raised exception (`error`); `now` is `datetime.now().isoformat()`.
Returns the updated agent state and the returned string. -/
def send_message_agent (model : String → Except String String) (st0 : AgentState)
    (message : String) (user_code : String) (now : String) : AgentState × String :=
  let stA := ensureSession st0
  let stB := if stA.history ≠ [] ∧ get_last_n_messages stA.history 5 ≠ [] then
               (tempFormatRecent stA).1
             else stA
  let full_message := buildFullMessage stA message user_code
  match model full_message with
  | Except.ok text =>
      ({ stB with
          user_code := user_code
          history := stB.history ++
            [{ role := "user", content := message, user_code := some user_code },
             { role := "assistant", content := text }] },
       text)
  | Except.error e =>
      let error_message := "An error occurred: " ++ e
      ({ stB with
          history := stB.history ++
            [{ role := "system", content := error_message, timestamp := some now }] },
       error_message)

/-- An outbound event pushed over the websocket by
`manager.send_personal_message` (timestamps elided; the `String` arguments
are the `message` payload and the `source`/`messageType` discriminator). -/
inductive OutEvent where
  | user_message (message : String) (source : String)
  | ai_message (message : String) (messageType : String)
  | interim_speech (message : String)
  | pong
deriving DecidableEq, Repr

/-- The observable outcome of one handler invocation in
`src/backend/app/websockets/ws.py`: the agent state afterwards, the outbound
events pushed in order, how many Gemini calls were made, the texts handed to
`speak`, and whether `stop_audio()` ran. -/
structure HandlerResult where
  agent : AgentState
  events : List OutEvent
  modelCalls : Nat
  spoke : List String
  stoppedAudio : Bool
deriving DecidableEq, Repr

/-- `handle_speech_message`: always calls `stop_audio()` first; on a final
transcript with non-empty stripped content it echoes the user message, calls
`send_message_agent`, pushes the reply and narrates it; on a non-final
transcript it only forwards an interim notification; otherwise it does
nothing further. -/
def handle_speech_message (model : String → Except String String) (now : String)
    (st : AgentState) (data : String) (is_final : Bool) (codeContext : String) :
    HandlerResult :=
  if is_final ∧ pyStrip data ≠ "" then
    let r := send_message_agent model st data codeContext now
    { agent := r.1
      events := [OutEvent.user_message data "speech", OutEvent.ai_message r.2 "response"]
      modelCalls := 1
      spoke := [r.2]
      stoppedAudio := true }
  else if ¬ is_final then
    { agent := st, events := [OutEvent.interim_speech data], modelCalls := 0,
      spoke := [], stoppedAudio := true }
  else
    { agent := st, events := [], modelCalls := 0, spoke := [], stoppedAudio := true }

/-- `handle_chat_message`: on non-empty stripped content it echoes the user
message and pushes the hard-coded placeholder reply; it never touches the
agent, the model or the narration layer. -/
def handle_chat_message (st : AgentState) (message : String) (_codeContext : String) :
    HandlerResult :=
  if pyStrip message ≠ "" then
    { agent := st
      events := [OutEvent.user_message message "text",
                 OutEvent.ai_message "[AI response placeholder]" "response"]
      modelCalls := 0
      spoke := []
      stoppedAudio := false }
  else
    { agent := st, events := [], modelCalls := 0, spoke := [], stoppedAudio := false }

/-- One inbound occurrence in the `websocket_endpoint` receive loop: a parsed
client message (discriminated by its `type` field, with the optional
`codeContext` field), or the expiry of the 30-second idle timeout
(`asyncio.TimeoutError`). -/
inductive InEvent where
  | speech (data : String) (is_final : Bool) (codeContext : Option String)
  | chat (message : String) (codeContext : Option String)
  | ping
  | timeout
  | unknown
deriving DecidableEq, Repr

/-- The idle-timeout prompt string hard-coded in `websocket_endpoint`. -/
def nudge_prompt : String :=
  "The user has been silent for a while. Offer a gentle hint or ask a question to help them get unstuck. Don\x27t give away the full answer."

/-- One iteration of the `websocket_endpoint` loop body: update
`last_code_context` from the message if it carries one, then dispatch.  On
timeout, ask the agent for a hint with the nudge prompt and the retained code
context, push it as an `ai_message` of type `hint`, and narrate it; the loop
then re-enters the timed wait (the idle timer restarts).  Returns the new
agent state, the new `last_code_context`, and the observable outcome. -/
def loopStep (model : String → Except String String) (now : String)
    (agent : AgentState) (lastCode : String) :
    InEvent → AgentState × String × HandlerResult
  | InEvent.speech d f cc =>
      let lastCode2 := cc.getD lastCode
      let r := handle_speech_message model now agent d f (cc.getD "")
      (r.agent, lastCode2, r)
  | InEvent.chat m cc =>
      let lastCode2 := cc.getD lastCode
      let r := handle_chat_message agent m (cc.getD "")
      (r.agent, lastCode2, r)
  | InEvent.ping =>
      (agent, lastCode,
       { agent := agent, events := [OutEvent.pong], modelCalls := 0, spoke := [],
         stoppedAudio := false })
  | InEvent.timeout =>
      let r := send_message_agent model agent nudge_prompt lastCode now
      (r.1, lastCode,
       { agent := r.1, events := [OutEvent.ai_message r.2 "hint"], modelCalls := 1,
         spoke := [r.2], stoppedAudio := false })
  | InEvent.unknown =>
      (agent, lastCode,
       { agent := agent, events := [], modelCalls := 0, spoke := [],
         stoppedAudio := false })

/-- The `websocket_endpoint` loop run over a finite schedule of inbound
occurrences, accumulating the outbound events and narrated texts. -/
def runLoop (model : String → Except String String) (now : String) :
    AgentState → String → List InEvent → AgentState × String × List OutEvent × List String
  | agent, lastCode, [] => (agent, lastCode, [], [])
  | agent, lastCode, ev :: rest =>
      let s := loopStep model now agent lastCode ev
      let t := runLoop model now s.1 s.2.1 rest
      (t.1, t.2.1, s.2.2.events ++ t.2.2.1, s.2.2.spoke ++ t.2.2.2)

/-- Number of `ai_message` events with `messageType = "hint"` (nudges). -/
def countHints : List OutEvent → Nat
  | [] => 0
  | OutEvent.ai_message _ mt :: rest => (if mt = "hint" then 1 else 0) + countHints rest
  | _ :: rest => countHints rest

/-- Number of idle-timeout expiries in a schedule. -/
def countTimeouts : List InEvent → Nat
  | [] => 0
  | InEvent.timeout :: rest => 1 + countTimeouts rest
  | _ :: rest => countTimeouts rest

/-!
Narration controller (`src/backend/app/agent/tts_service.py`).

The playback worker `_play_audio_thread` checks the shared `_stop_event`
before each audio chunk, so at chunk granularity a live worker is a count of
chunks still to deliver.  `stop_audio` sets the event, halts the device and
joins the thread referenced by `_current_playback_thread` **with a 1-second
timeout**; whether that join completes before the timeout depends on the
scheduler, so it is an explicit `joinOk` parameter of the transition.  A
worker that is still alive when `speak` replaces `_current_playback_thread`
becomes an unreferenced orphan that is never joined again.
-/

/-- The module-level state of `tts_service`: `_pipeline` initialised or not,
the shared `_stop_event`, the remaining chunk count of the thread referenced
by `_current_playback_thread` (`none` when absent or exited), the remaining
chunk counts of alive threads no longer referenced, and `_is_playing`. -/
structure TTSState where
  pipeline_init : Bool
  stop_event : Bool
  current : Option (String × Nat)
  orphans : List (String × Nat)
  is_playing : Bool
deriving DecidableEq, Repr

/-- Number of playback worker threads currently alive. -/
def aliveWorkers (st : TTSState) : Nat :=
  st.orphans.length + (match st.current with | some _ => 1 | none => 0)

/-- `stop_audio`: set `_stop_event`, call `sd.stop()`, then join the current
thread with `timeout=1.0`.  `joinOk = true` means the worker reached its next
stop-event check within the timeout (and, the event being set, exited);
`joinOk = false` is the logged `"Playback thread did not stop within
timeout"` case, leaving the worker alive. -/
def stop_audio (st : TTSState) (joinOk : Bool) : TTSState :=
  let st1 := { st with stop_event := true }
  match st1.current with
  | none => { st1 with is_playing := false }
  | some w =>
      if joinOk then { st1 with current := none, is_playing := false }
      else { st1 with current := some w, is_playing := false }

/-- `speak`: bail out if the pipeline is uninitialised, otherwise run
`stop_audio`, **clear** the stop event, and start (and henceforth reference)
a fresh worker for the new utterance.  A previous worker that survived the
bounded join becomes an orphan sharing the now-cleared stop event.  Returns
the new state and the boolean result of the function. -/
def speak (st : TTSState) (text : String) (chunks : Nat) (joinOk : Bool) :
    TTSState × Bool :=
  if ¬ st.pipeline_init then (st, false)
  else
    let st1 := stop_audio st joinOk
    let st2 := { st1 with stop_event := false }
    ({ st2 with
        orphans := st2.orphans ++ st2.current.toList
        current := some (text, chunks)
        is_playing := true },
     true)

/-- One chunk-granularity step of an alive worker (`_play_audio_thread` body):
if the stop event is set, or the chunk generator is exhausted, the worker
exits; otherwise it delivers one chunk to the device. -/
def workerTick (stopEvent : Bool) (w : String × Nat) : Option (String × Nat) :=
  if stopEvent then none
  else match w.2 with
       | 0 => none
       | Nat.succ k => some (w.1, k)

/-- Interleaved actions on the narration state: a `speak` call, a bare
`stop_audio` call, or a scheduler step of the referenced / an orphaned
worker. -/
inductive TTSOp where
  | speakCall (text : String) (chunks : Nat) (joinOk : Bool)
  | stopCall (joinOk : Bool)
  | tickCurrent
  | tickOrphan (i : Nat)
deriving DecidableEq, Repr

/-- Apply one action. -/
def ttsStep (st : TTSState) : TTSOp → TTSState
  | TTSOp.speakCall text chunks joinOk => (speak st text chunks joinOk).1
  | TTSOp.stopCall joinOk => stop_audio st joinOk
  | TTSOp.tickCurrent =>
      match st.current with
      | none => st
      | some w =>
          match workerTick st.stop_event w with
          | none => { st with current := none, is_playing := false }
          | some w2 => { st with current := some w2 }
  | TTSOp.tickOrphan i =>
      match st.orphans.get? i with
      | none => st
      | some w =>
          match workerTick st.stop_event w with
          | none => { st with orphans := st.orphans.eraseIdx i }
          | some w2 => { st with orphans := st.orphans.set i w2 }

/-- Run a schedule of actions. -/
def runTTS (st : TTSState) : List TTSOp → TTSState
  | [] => st
  | op :: rest => runTTS (ttsStep st op) rest

/-- The state after `initialize_tts` succeeds, before any `speak`. -/
def ttsInit : TTSState :=
  { pipeline_init := true, stop_event := false, current := none, orphans := [],
    is_playing := false }

/-- The `joinOk` outcome an action assumes (`true` for worker ticks). -/
def joinOkOf : TTSOp → Bool
  | TTSOp.speakCall _ _ j => j
  | TTSOp.stopCall j => j
  | _ => true

/-- `feedback_system_prompt` from `src/backend/app/agent/prompt.py`, with the
`\x7bproblem\x7d`, `\x7bchat_history\x7d` and `\x7bfinal_code\x7d`
placeholders still unfilled. -/
def feedback_system_prompt : String :=
  "\nYou are an expert technical interviewer evaluating a candidate\x27s performance in a coding interview. Your feedback must focus primarily on:\n\nA. CLARIFICATION BEHAVIOR\nB. EXPLICIT REASONING (CHAIN OF THOUGHT SHARING)\nC. SOLUTION QUALITY & OPTIMALITY\n\nInputs:\nProblem Statement:\n{problem}\n\nChat History Context:\n{chat_history}\n\nFinal Code Submission:\n{final_code}\n\n### EVALUATION INSTRUCTIONS\n\nProduce an evaluation with the following sections and an overall score. Base judgments ONLY on evidence apparent in {chat_history} and {final_code}. If something is absent, treat it as NOT demonstrated (do not assume).\n\n---\n\n\n## 1. CLARIFICATION & REQUIREMENT GATHERING (Score 0–5)\nEvaluate how effectively the candidate narrowed ambiguity *before or early during coding*.\nConsider:\n- Did they ask purposeful clarifying questions about constraints, input domain, edge cases, performance limits, data sizes, error conditions, mutability, or output format?\n- Did they confirm assumptions aloud?\n- Did they restate the problem precisely?\n\n\n**Scoring Guide:**\n- 5: Proactively surfaced key hidden constraints, verified assumptions, explored edge cases thoroughly.\n- 4: Asked several relevant clarifications; minor omissions.\n- 3: Some clarification attempts but missed notable ambiguities.\n- 2: Minimal clarification—mostly reactive; important assumptions unchecked.\n- 1: Essentially no clarification; proceeded on unchecked assumptions.\n- 0: Asked misleading or irrelevant questions or ignored explicit ambiguities.\n\n\nList concrete examples (quote paraphrased snippets) that justify the score.\n\n---\n\n## 2. REASONING TRANSPARENCY / CHAIN OF THOUGHT (Score 0–5)\nAssess how well they externalized thinking.\nConsider:\n- Did they outline an approach before coding?\n- Did they compare alternate strategies or complexities?\n- Did they verbalize invariants, data structure choices, failure modes?\n- Did they narrate debugging steps or test reasoning?\n\n\n**Scoring Guide:**\n- 5: Continuous, structured narration; compares alternatives with complexity trade-offs.\n- 4: Clear approach + intermittent reasoning; minor gaps.\n- 3: Some explanation; notable silent jumps.\n- 2: Sparse reasoning; mostly just code.\n- 1: Minimal commentary; reasoning largely opaque.\n- 0: No discernible reasoning or incorrect meta-explanations hindering progress.\n\n\nCite evidence.\n\n---\n\n## 3. SOLUTION QUALITY & OPTIMALITY (Score 0–5)\nJudge final solution *relative to known optimal constraints for this problem*.\nConsider:\n- Asymptotic time & space vs optimal known bounds.\n- Correctness across typical & edge cases (state unhandled cases).\n- Code clarity (naming, structure) only insofar as it affects evaluability.\n- Appropriate data structure / algorithm choices.\n- If suboptimal: is a better-known standard solution available?\n\n\n**Scoring Guide:**\n- 5: Fully correct, handles edge cases, achieves optimal time & space, clean and idiomatic.\n- 4: Correct and near-optimal (e.g., optimal time but minor avoidable extra space or small edge omission).\n- 3: Generally works for main path; misses some edge cases or has mildly suboptimal complexity.\n- 2: Partially correct; noticeable logical gaps or clearly suboptimal complexity given constraints.\n- 1: Major correctness issues; inefficient vs well-known standard.\n- 0: Fails to produce a working or relevant solution.\n\n\nExplicitly state:\n- Claimed complexity vs Actual complexity vs Known optimal complexity.\n- Missing or mishandled edge cases (enumerate).\n- If improved solution exists, summarize it succinctly.\n\n\n---\n\n\n## 4. SCORE SUMMARY\nProvide numerical scores (0-5) for each category and calculate the total score (0-15). Also provide a recommendation based on the scoring heuristic and a brief explanation justifying your scores and recommendation.\n\n\nRecommendation Heuristic (guideline, adjust if justified):\n- Strong Hire: all ≥4 and at least one 5.\n- Hire: total ≥10 with no category <3.\n- No Hire: total 6–9 or any category =2.\n- Strong No Hire: any category ≤1 or total ≤5.\n\n\nJustify if deviating.\n\n---\n\n## 5. TARGETED FEEDBACK & IMPROVEMENT PLAN\nConcise, prioritized bullets:\n- **If Clarification <5:** Which specific missed questions should have been asked.\n- **If Reasoning <5:** How to externalize thinking better (concrete tactics).\n- **If Solution <5:** Specific algorithm/data structure or pattern to study; outline optimal approach in 2–4 sentences.\n\n\nAvoid generic platitudes.\n\n---\n\n### OUTPUT FORMAT RULES\n- Follow the section order exactly: 1–5.\n- Use professional, constructive tone.\n- Do NOT reveal private evaluator meta-process or unseen info.\n- Keep each section focused; avoid redundancy.\n- Include only problem-relevant technical detail.\n\n\nBegin your response now.\n"

/-- The pydantic response schema `FeedbackScore` of
`src/backend/app/agent/feedback_agent.py`. -/
structure FeedbackScore where
  clarification : Int
  reasoning : Int
  solution : Int
  total : Int
  recommendation : String
  explanation : String
deriving DecidableEq, Repr

/-- JSON string escaping as performed by pydantic\x27s serializer for the
string fields of `FeedbackScore`. -/
def jsonEscape (s : String) : String :=
  s.data.foldl
    (fun acc c =>
      acc ++ (if c = '\\' then "\\\\" else if c = '"' then "\\\"" else
              if c = '\n' then "\\n" else String.mk [c]))
    ""

/-- `FeedbackScore.model_dump_json()`: the structured scores serialized as a
compact JSON object in field declaration order (pydantic `BaseModel`). -/
def model_dump_json (fs : FeedbackScore) : String :=
  "\x7b\"clarification\":" ++ toString fs.clarification ++
  ",\"reasoning\":" ++ toString fs.reasoning ++
  ",\"solution\":" ++ toString fs.solution ++
  ",\"total\":" ++ toString fs.total ++
  ",\"recommendation\":\"" ++ jsonEscape fs.recommendation ++
  "\",\"explanation\":\"" ++ jsonEscape fs.explanation ++ "\"\x7d"

/-- The mutable fields of Python class `FeedbackAgent`.  `chat_session`
records whether `self.chat_session` is a live session object (`true`) or
still `None`; `system_instruction` is `none` until `update_context` first
assigns the attribute. -/
structure FeedbackAgentState where
  chat_history_context : String
  problem_description : String
  final_code : String
  system_instruction : Option String
  chat_session : Bool
deriving DecidableEq, Repr

/-- `FeedbackAgent.__init__`. -/
def initialFeedbackAgent : FeedbackAgentState :=
  { chat_history_context := "No chat history provided yet."
    problem_description := "No problem provided"
    final_code := "No code provided"
    system_instruction := none
    chat_session := false }

/-- `FeedbackAgent.update_context`: store the problem description, chat
history and final code (with their fallback defaults), format the feedback
system prompt with all three, and create the chat session.  This is the only
operation that sets `chat_session`. -/
def update_context (st : FeedbackAgentState) (description : Option String)
    (chat_history : String) (final_code : String) : FeedbackAgentState :=
  let desc := description.getD "No problem provided"
  let ch := if chat_history ≠ "" then chat_history else "No chat history provided."
  let fc := if final_code ≠ "" then final_code else "No code provided"
  { st with
    problem_description := desc
    chat_history_context := ch
    final_code := fc
    system_instruction := some
      (pyFormat (pyFormat (pyFormat feedback_system_prompt "problem" desc)
        "chat_history" ch) "final_code" fc)
    chat_session := true }

/-- The fixed request text sent by `generate_feedback_json`. -/
def feedback_request : String :=
  "Please provide a comprehensive evaluation of this candidate\x27s performance based on the problem, chat history, and final code provided in the context."

/-- `FeedbackAgent.generate_feedback_json`.  `generate_content` is the
external structured model client (`client.models.generate_content` with the
`FeedbackScore` response schema), given the request text and the session\x27s
system instruction; it yields a parsed `FeedbackScore` or the message of a
raised exception.  The result pairs the returned string with the number of
model calls performed. -/
def generate_feedback_json
    (generate_content : String → Option String → Except String FeedbackScore)
    (st : FeedbackAgentState) : String × Nat :=
  if ¬ st.chat_session then
    ("Error: Context not initialized. Please call update_context first.", 0)
  else
    match generate_content feedback_request st.system_instruction with
    | Except.ok parsed => (model_dump_json parsed, 1)
    | Except.error e => ("An error occurred while generating feedback: " ++ e, 1)

/-- An agent state whose transcript has already reached the conversational
conclusion: the last assistant turn is the fixed closing string that the
system prompt reserves for the END state. -/
def concludedState : AgentState :=
  { history :=
      [{ role := "user", content := "Using a hash map keeps it at O(n) time.",
         user_code := some "def twoSum(nums, target): ..." },
       { role := "assistant", content := closingString }]
    user_code := "def twoSum(nums, target): ..."
    problem_description := "Two Sum"
    system_instruction := some (pyFormat interview_system_prompt "problem" "Two Sum")
    chat_session := true }

/-!  Helper lemmas shared by the claim theorems. -/

theorem ensureSession_history (st : AgentState) :
    (ensureSession st).history = st.history := by
  unfold ensureSession update_problem
  split <;> rfl

theorem tempFormatRecent_fst (st : AgentState) : (tempFormatRecent st).1 = st := rfl

theorem send_message_agent_ok (model : String → Except String String)
    (st : AgentState) (message user_code now text : String)
    (h : model (buildFullMessage (ensureSession st) message user_code) = Except.ok text) :
    send_message_agent model st message user_code now =
      ({ ensureSession st with
          user_code := user_code
          history := (ensureSession st).history ++
            [{ role := "user", content := message, user_code := some user_code },
             { role := "assistant", content := text }] },
       text) := by
  simp only [send_message_agent, tempFormatRecent_fst, ite_self, h]

theorem send_message_agent_err (model : String → Except String String)
    (st : AgentState) (message user_code now e : String)
    (h : model (buildFullMessage (ensureSession st) message user_code) = Except.error e) :
    send_message_agent model st message user_code now =
      ({ ensureSession st with
          history := (ensureSession st).history ++
            [{ role := "system", content := "An error occurred: " ++ e,
               timestamp := some now }] },
       "An error occurred: " ++ e) := by
  simp only [send_message_agent, tempFormatRecent_fst, ite_self, h]

/-- C9 fails as stated at `n = 0`: by the Python slice semantics
`history[-0:] = history`, `get_last_n_messages h 0` returns the whole
history, so on a one-element history it returns 1 > 0 turns. -/
theorem C9_counterexample :
    (get_last_n_messages [{ role := "user", content := "hello" }] 0).length = 1
    ∧ ¬ ((get_last_n_messages [{ role := "user", content := "hello" }] 0).length ≤ 0) := by
  decide

/-- C9 (amended to `1 ≤ n`): for every history and every `n ≥ 1`,
`get_last_n_messages` returns at most `n` turns, as a suffix of the history
(hence in original append order, and all turns when fewer than `n` exist),
and it is idempotent: applying it again to its own result returns the same
list. -/
theorem C9_recent_bounded_ordered_idempotent (history : List Msg) (n : Nat)
    (h : 1 ≤ n) :
    (get_last_n_messages history n).length ≤ n
    ∧ get_last_n_messages history n <:+ history
    ∧ (history.length ≤ n → get_last_n_messages history n = history)
    ∧ get_last_n_messages (get_last_n_messages history n) n =
        get_last_n_messages history n := by
  have hn : ¬ n = 0 := by omega
  by_cases hle : n ≤ history.length
  · have hlen : (history.drop (history.length - n)).length = n := by
      rw [List.length_drop]; omega
    refine ⟨?_, ?_, ?_, ?_⟩
    · simp [get_last_n_messages, pyTailSlice, hle, hn, List.length_drop]
    · simp only [get_last_n_messages, pyTailSlice, hle, hn, if_true, if_false]
      exact List.drop_suffix _ _
    · intro hge
      have : history.length - n = 0 := by omega
      simp [get_last_n_messages, pyTailSlice, hle, hn, this]
    · simp [get_last_n_messages, pyTailSlice, hle, hn, hlen]
  · refine ⟨?_, ?_, ?_, ?_⟩
    · simp [get_last_n_messages, pyTailSlice, hle]; omega
    · simp [get_last_n_messages, pyTailSlice, hle]
    · intro _; simp [get_last_n_messages, pyTailSlice, hle]
    · simp [get_last_n_messages, pyTailSlice, hle]

/-- C9 witness: the amended theorem applied to a concrete two-turn history
with `n = 1`. -/
theorem C9_witness :
    (get_last_n_messages
      [{ role := "user", content := "a" }, { role := "assistant", content := "b" }] 1).length ≤ 1
    ∧ get_last_n_messages
        [{ role := "user", content := "a" }, { role := "assistant", content := "b" }] 1 <:+
        [{ role := "user", content := "a" }, { role := "assistant", content := "b" }]
    ∧ get_last_n_messages (get_last_n_messages
        [{ role := "user", content := "a" }, { role := "assistant", content := "b" }] 1) 1 =
      get_last_n_messages
        [{ role := "user", content := "a" }, { role := "assistant", content := "b" }] 1 := by
  have h := C9_recent_bounded_ordered_idempotent
    [{ role := "user", content := "a" }, { role := "assistant", content := "b" }] 1
    (by decide)
  exact ⟨h.1, h.2.1, h.2.2.2⟩

/-- C4: `get_formatted_history` is the `"\n\n"`-join of the per-turn blocks,
turns whose stripped content is empty are skipped, a user turn whose stripped
code snapshot is non-empty and not the sentinel "No code provided yet."
renders with a `User Code Context:` section holding that code beneath the
message text, and a user turn carrying the sentinel renders without that
section. -/
theorem C4_renderFormatted (history : List Msg) :
    get_formatted_history history =
      String.intercalate "\n\n" (history.filterMap formatTurn)
    ∧ (∀ m ∈ history, pyStrip m.content = "" → formatTurn m = none)
    ∧ (∀ content user_code : String, pyStrip content ≠ "" →
        pyStrip user_code ≠ "" → pyStrip user_code ≠ "No code provided yet." →
        formatTurn { role := "user", content := content, user_code := some user_code } =
          some ("USER: " ++ pyStrip content ++ "\n\nUser Code Context:\n" ++
            pyStrip user_code))
    ∧ (∀ content : String, pyStrip content ≠ "" →
        formatTurn { role := "user", content := content,
                     user_code := some "No code provided yet." } =
          some ("USER: " ++ pyStrip content)) := by
  have hUser : pyUpper "user" = "USER" := by decide
  have hSent : pyStrip "No code provided yet." = "No code provided yet." := by decide
  refine ⟨?_, ?_, ?_, ?_⟩
  · unfold get_formatted_history
    split
    · rename_i hnil; rw [hnil]; rfl
    · rfl
  · intro m _ hc
    simp [formatTurn, hc]
  · intro content user_code hc hu hs
    simp [formatTurn, hc, hu, hs, hUser]
  · intro content hc
    simp [formatTurn, hc, hUser, hSent]

/-- C4 witness: the theorem applied to concrete turns (one with a real code
snapshot, one with the sentinel) and to the empty transcript. -/
theorem C4_witness :
    formatTurn { role := "user", content := " hi ", user_code := some "x = 1" } =
      some ("USER: " ++ pyStrip " hi " ++ "\n\nUser Code Context:\n" ++ pyStrip "x = 1")
    ∧ formatTurn
        { role := "user", content := "hi", user_code := some "No code provided yet." } =
        some ("USER: " ++ pyStrip "hi")
    ∧ get_formatted_history [] =
        String.intercalate "\n\n" (List.filterMap formatTurn []) := by
  exact ⟨(C4_renderFormatted []).2.2.1 " hi " "x = 1" (by decide) (by decide) (by decide),
         (C4_renderFormatted []).2.2.2 "hi" (by decide),
         (C4_renderFormatted []).1⟩

/-- C5: the transcript is append-only.  Creating the missing chat session
does not touch the history, the temporary history swap performed while
formatting the recent context restores the agent state exactly, and for every
model outcome the prior history is a prefix of the history after
`send_message_agent` (new turns are only added at the end). -/
theorem C5_transcript_append_only (model : String → Except String String)
    (st : AgentState) (message user_code now : String) :
    (ensureSession st).history = st.history
    ∧ (tempFormatRecent st).1 = st
    ∧ st.history <+: (send_message_agent model st message user_code now).1.history := by
  refine ⟨ensureSession_history st, tempFormatRecent_fst st, ?_⟩
  cases hm : model (buildFullMessage (ensureSession st) message user_code) with
  | ok text =>
      rw [send_message_agent_ok model st message user_code now text hm]
      simp only [ensureSession_history]
      exact ⟨_, rfl⟩
  | error e =>
      rw [send_message_agent_err model st message user_code now e hm]
      simp only [ensureSession_history]
      exact ⟨_, rfl⟩

/-- C6: an exception raised by the model client never propagates out of
`send_message_agent`; the caller receives the plain-text sentence
`"An error occurred: "` followed by the exception message, not a stack trace
or a bare error code. -/
theorem C6_model_error_contained (model : String → Except String String)
    (st : AgentState) (message user_code now e : String)
    (h : model (buildFullMessage (ensureSession st) message user_code) = Except.error e) :
    (send_message_agent model st message user_code now).2 = "An error occurred: " ++ e := by
  rw [send_message_agent_err model st message user_code now e h]

/-- C6 witness: a model that always raises `"quota exceeded"`. -/
theorem C6_witness :
    (send_message_agent (fun _ => Except.error "quota exceeded") initialAgent
      "hello" "" "t1").2 = "An error occurred: quota exceeded" :=
  C6_model_error_contained (fun _ => Except.error "quota exceeded") initialAgent
    "hello" "" "t1" "quota exceeded" rfl

/-- C7 fails as stated: on a failed model call the transcript does not stay
unchanged — a system-role error turn is appended (here from the empty
history). -/
theorem C7_counterexample :
    (send_message_agent (fun _ => Except.error "boom") initialAgent "hi" "" "t0").1.history
      = [{ role := "system", content := "An error occurred: boom",
           timestamp := some "t0" }] := by
  rw [send_message_agent_err (fun _ => Except.error "boom") initialAgent "hi" "" "t0"
    "boom" rfl]
  rfl

/-- C7 (amended): if the model call fails, the only turn recorded for the
exchange is a single system-role error turn — no user turn and no assistant
turn is appended; every user- or assistant-role turn of the resulting history
was already present before the call. -/
theorem C7_failure_appends_only_system_turn (model : String → Except String String)
    (st : AgentState) (message user_code now e : String)
    (h : model (buildFullMessage (ensureSession st) message user_code) = Except.error e) :
    (send_message_agent model st message user_code now).1.history =
      st.history ++ [{ role := "system", content := "An error occurred: " ++ e,
                       timestamp := some now }]
    ∧ ∀ m ∈ (send_message_agent model st message user_code now).1.history,
        (m.role = "user" ∨ m.role = "assistant") → m ∈ st.history := by
  have heq : (send_message_agent model st message user_code now).1.history =
      st.history ++ [{ role := "system", content := "An error occurred: " ++ e,
                       timestamp := some now }] := by
    rw [send_message_agent_err model st message user_code now e h]
    simp only [ensureSession_history]
  refine ⟨heq, ?_⟩
  intro m hm hrole
  rw [heq] at hm
  rcases List.mem_append.mp hm with h1 | h2
  · exact h1
  · exfalso
    have : m = { role := "system", content := "An error occurred: " ++ e,
                 timestamp := some now } := List.mem_singleton.mp h2
    rcases hrole with hr | hr <;> rw [this] at hr <;> simp at hr

/-- C7 witness: the amended theorem at a concrete failing model and a
one-turn prior history. -/
theorem C7_witness :
    (send_message_agent (fun _ => Except.error "boom") initialAgent "hi" "" "t0").1.history =
      [] ++ [{ role := "system", content := "An error occurred: " ++ "boom",
               timestamp := some "t0" }] :=
  (C7_failure_appends_only_system_turn (fun _ => Except.error "boom") initialAgent
    "hi" "" "t0" "boom" rfl).1

/-- C2 fails as stated: a chat event with non-empty trimmed content does
*not* get the full reply pipeline — `handle_chat_message` pushes the echo and
a hard-coded `"[AI response placeholder]"` reply, but makes no model call,
appends no turns and triggers no narration. -/
theorem C2_counterexample :
    pyStrip "hi" ≠ ""
    ∧ (handle_chat_message initialAgent "hi" "").modelCalls = 0
    ∧ (handle_chat_message initialAgent "hi" "").spoke = []
    ∧ (handle_chat_message initialAgent "hi" "").agent = initialAgent
    ∧ (handle_chat_message initialAgent "hi" "").events =
        [OutEvent.user_message "hi" "text",
         OutEvent.ai_message "[AI response placeholder]" "response"] := by
  decide

/-- C2 (amended): only final-speech events get the full pipeline, and only
when the stripped content is non-empty (echo, model call through
`send_message_agent` — which appends the user and assistant turns — reply
push, narration); a chat event with non-empty stripped content gets only the
echo and a fixed placeholder reply with no model call, no turn append and no
narration; events whose stripped content is empty produce no output and no
agent change, though the speech handler has already stopped current narration
unconditionally. -/
theorem C2_pipeline_iff_content (model : String → Except String String)
    (now : String) (st : AgentState) (message code data cc : String) :
    (pyStrip message = "" → handle_chat_message st message code =
        { agent := st, events := [], modelCalls := 0, spoke := [],
          stoppedAudio := false })
    ∧ (pyStrip message ≠ "" → handle_chat_message st message code =
        { agent := st,
          events := [OutEvent.user_message message "text",
                     OutEvent.ai_message "[AI response placeholder]" "response"],
          modelCalls := 0, spoke := [], stoppedAudio := false })
    ∧ (pyStrip data = "" → handle_speech_message model now st data true cc =
        { agent := st, events := [], modelCalls := 0, spoke := [],
          stoppedAudio := true })
    ∧ (pyStrip data ≠ "" → handle_speech_message model now st data true cc =
        { agent := (send_message_agent model st data cc now).1,
          events := [OutEvent.user_message data "speech",
                     OutEvent.ai_message (send_message_agent model st data cc now).2
                       "response"],
          modelCalls := 1,
          spoke := [(send_message_agent model st data cc now).2],
          stoppedAudio := true }) := by
  refine ⟨?_, ?_, ?_, ?_⟩ <;> intro h <;>
    simp [handle_chat_message, handle_speech_message, h]

/-- C2 witness: the amended theorem at a concrete non-empty chat message and
a concrete empty (whitespace-only) chat message. -/
theorem C2_witness :
    handle_chat_message initialAgent "hello" "" =
      { agent := initialAgent,
        events := [OutEvent.user_message "hello" "text",
                   OutEvent.ai_message "[AI response placeholder]" "response"],
        modelCalls := 0, spoke := [], stoppedAudio := false }
    ∧ handle_chat_message initialAgent "  " "" =
      { agent := initialAgent, events := [], modelCalls := 0, spoke := [],
        stoppedAudio := false } :=
  ⟨(C2_pipeline_iff_content (fun _ => Except.ok "r") "t0" initialAgent
      "hello" "" "" "").2.1 (by decide),
   (C2_pipeline_iff_content (fun _ => Except.ok "r") "t0" initialAgent
      "  " "" "" "").1 (by decide)⟩

/-- C1 fails as stated: the code keeps no phase variable, so even on a
session whose transcript already ends with the closing assistant turn a
further final speech message triggers exactly one model call, and the pushed
reply is whatever the model returns — not necessarily the fixed closing
string. -/
theorem C1_counterexample :
    concludedState.history.getLast? =
      some { role := "assistant", content := closingString }
    ∧ (handle_speech_message
        (fun _ => Except.ok "Sure, let me explain the follow-up in more detail.")
        "t2" concludedState "why?" true "").modelCalls = 1
    ∧ (handle_speech_message
        (fun _ => Except.ok "Sure, let me explain the follow-up in more detail.")
        "t2" concludedState "why?" true "").events =
        [OutEvent.user_message "why?" "speech",
         OutEvent.ai_message "Sure, let me explain the follow-up in more detail."
           "response"]
    ∧ "Sure, let me explain the follow-up in more detail." ≠ closingString := by
  refine ⟨by decide, rfl, rfl, by decide⟩

/-- C1 (amended): the END behaviour lives only in the system prompt — the
prompt contains the instruction directing the model to answer every
post-conclusion input with exactly the fixed closing string — while the
program performs one model call for every non-empty final inbound message,
in any state, and forwards the reply of the model verbatim (so the fixed closing
reply is produced exactly when the model follows that instruction). -/
theorem C1_end_phase_prompt_delegation (model : String → Except String String)
    (now : String) (st : AgentState) (data cc : String) (h : pyStrip data ≠ "") :
    (∃ pre post, interview_system_prompt = pre ++ endInstruction ++ post)
    ∧ endInstruction =
        "Then respond only: \"" ++ closingString ++ "\" to any further input."
    ∧ (handle_speech_message model now st data true cc).modelCalls = 1
    ∧ (handle_speech_message model now st data true cc).events =
        [OutEvent.user_message data "speech",
         OutEvent.ai_message (send_message_agent model st data cc now).2 "response"] := by
  refine ⟨⟨promptPre, promptPost, rfl⟩, rfl, ?_, ?_⟩ <;>
    simp [handle_speech_message, h]

/-- C1 witness: with a model that follows the END instruction and returns the
closing string, the concluded session pushes exactly the closing string. -/
theorem C1_witness :
    (handle_speech_message (fun _ => Except.ok closingString) "t3" concludedState
      "thanks" true "").events =
      [OutEvent.user_message "thanks" "speech",
       OutEvent.ai_message closingString "response"] := by
  have h := C1_end_phase_prompt_delegation (fun _ => Except.ok closingString) "t3"
    concludedState "thanks" "" (by decide)
  exact h.2.2.2.trans (by rfl)

theorem countHints_append (l₁ l₂ : List OutEvent) :
    countHints (l₁ ++ l₂) = countHints l₁ + countHints l₂ := by
  induction l₁ with
  | nil => simp [countHints]
  | cons e rest ih => cases e <;> simp [countHints, ih, Nat.add_assoc]

theorem countHints_loopStep (model : String → Except String String) (now : String)
    (a : AgentState) (lc : String) (ev : InEvent) :
    countHints (loopStep model now a lc ev).2.2.events = countTimeouts [ev] := by
  cases ev with
  | speech d f cc =>
      simp only [loopStep, handle_speech_message, countTimeouts]
      split
      · simp [countHints]
      · split <;> simp [countHints]
  | chat m cc =>
      simp only [loopStep, handle_chat_message, countTimeouts]
      split <;> simp [countHints]
  | ping => simp [loopStep, countHints, countTimeouts]
  | timeout => simp [loopStep, countHints, countTimeouts]
  | unknown => simp [loopStep, countHints, countTimeouts]

theorem countTimeouts_cons (ev : InEvent) (rest : List InEvent) :
    countTimeouts (ev :: rest) = countTimeouts [ev] + countTimeouts rest := by
  cases ev <;> simp [countTimeouts]

/-- C8: on expiry of the idle timeout the loop produces exactly one nudge:
the system-originated `nudge_prompt` is sent to the model together with the
retained code context, no `user_message` echo is shown to the client, the
reply of the model is pushed once as a `hint`-typed `ai_message`, narrated, and
recorded as an assistant turn (with the nudge prompt stored as the model-side
user turn) exactly like any other reply; and over any schedule of inbound
occurrences the number of hint messages equals the number of timeout
expiries (the idle timer restarts each round). -/
theorem C8_idle_nudge (model : String → Except String String) (now : String)
    (agent : AgentState) (lastCode reply : String)
    (h : model (buildFullMessage (ensureSession agent) nudge_prompt lastCode) =
      Except.ok reply) :
    (loopStep model now agent lastCode InEvent.timeout).2.2.events =
      [OutEvent.ai_message reply "hint"]
    ∧ (loopStep model now agent lastCode InEvent.timeout).2.2.spoke = [reply]
    ∧ (∀ m s, OutEvent.user_message m s ∉
        (loopStep model now agent lastCode InEvent.timeout).2.2.events)
    ∧ (loopStep model now agent lastCode InEvent.timeout).1.history =
        (ensureSession agent).history ++
          [{ role := "user", content := nudge_prompt, user_code := some lastCode },
           { role := "assistant", content := reply }]
    ∧ (loopStep model now agent lastCode InEvent.timeout).2.1 = lastCode
    ∧ (∀ evs : List InEvent, ∀ a : AgentState, ∀ lc : String,
        countHints (runLoop model now a lc evs).2.2.1 = countTimeouts evs) := by
  have hsend := send_message_agent_ok model agent nudge_prompt lastCode now reply h
  refine ⟨?_, ?_, ?_, ?_, ?_, ?_⟩
  · simp [loopStep, hsend]
  · simp [loopStep, hsend]
  · intro m s
    simp [loopStep, hsend]
  · simp [loopStep, hsend]
  · simp [loopStep, hsend]
  · intro evs
    induction evs with
    | nil => intro a lc; simp [runLoop, countHints, countTimeouts]
    | cons ev rest ih =>
        intro a lc
        have hstep : (runLoop model now a lc (ev :: rest)).2.2.1 =
            (loopStep model now a lc ev).2.2.events ++
            (runLoop model now (loopStep model now a lc ev).1
              (loopStep model now a lc ev).2.1 rest).2.2.1 := rfl
        rw [hstep, countHints_append, countHints_loopStep, ih, countTimeouts_cons ev rest]

/-- C8 witness: a concrete timeout with a model answering the nudge, plus a
hint count over a concrete schedule with two timeouts. -/
theorem C8_witness :
    (loopStep (fun _ => Except.ok "Try a hash map.") "t4" initialAgent "x = 1"
      InEvent.timeout).2.2.events = [OutEvent.ai_message "Try a hash map." "hint"]
    ∧ countHints (runLoop (fun _ => Except.ok "Try a hash map.") "t4" initialAgent
        "x = 1" [InEvent.timeout, InEvent.ping, InEvent.timeout]).2.2.1 =
      countTimeouts [InEvent.timeout, InEvent.ping, InEvent.timeout] := by
  have h := C8_idle_nudge (fun _ => Except.ok "Try a hash map.") "t4" initialAgent
    "x = 1" "Try a hash map." rfl
  exact ⟨h.1, h.2.2.2.2.2 [InEvent.timeout, InEvent.ping, InEvent.timeout]
    initialAgent "x = 1"⟩

theorem ttsStep_orphans_nil (st : TTSState) (op : TTSOp)
    (hj : joinOkOf op = true) (h0 : st.orphans = []) :
    (ttsStep st op).orphans = [] := by
  cases op with
  | speakCall text chunks joinOk =>
      simp only [joinOkOf] at hj
      subst hj
      simp only [ttsStep, speak, stop_audio]
      split
      · exact h0
      · cases hc : st.current <;> simp [hc, h0]
  | stopCall joinOk =>
      simp only [joinOkOf] at hj
      subst hj
      simp only [ttsStep, stop_audio]
      cases hc : st.current <;> simp [hc, h0]
  | tickCurrent =>
      simp only [ttsStep]
      cases hc : st.current with
      | none => exact h0
      | some w => cases hw : workerTick st.stop_event w <;> simp [hw, h0]
  | tickOrphan i =>
      simp only [ttsStep]
      rw [h0]
      simp [h0]

theorem aliveWorkers_le_one (st : TTSState) (h0 : st.orphans = []) :
    aliveWorkers st ≤ 1 := by
  unfold aliveWorkers
  rw [h0]
  cases st.current <;> simp

/-- C3 fails as stated: when the 1-second `join` in `stop_audio` times out
(`joinOk = false`), `speak` still clears the shared stop event and starts a
new worker while the old one is alive, so two playback workers are alive at
once — and the orphaned first worker, seeing the cleared stop event, even
delivers a further chunk of utterance A after utterance B has started. -/
theorem C3_counterexample :
    aliveWorkers (runTTS ttsInit
      [TTSOp.speakCall "A" 3 true, TTSOp.tickCurrent, TTSOp.speakCall "B" 2 false]) = 2
    ∧ (runTTS ttsInit
        [TTSOp.speakCall "A" 3 true, TTSOp.tickCurrent,
         TTSOp.speakCall "B" 2 false]).orphans = [("A", 2)]
    ∧ (runTTS ttsInit
        [TTSOp.speakCall "A" 3 true, TTSOp.tickCurrent,
         TTSOp.speakCall "B" 2 false]).current = some ("B", 2)
    ∧ (runTTS ttsInit
        [TTSOp.speakCall "A" 3 true, TTSOp.tickCurrent, TTSOp.speakCall "B" 2 false,
         TTSOp.tickOrphan 0]).orphans = [("A", 1)] := by
  decide

/-- C3 (amended): every `speak` performs the cancel sequence (set the stop
flag, stop the device, join the previous worker with a bounded timeout)
before starting a new worker, and afterwards the referenced worker is always
the most recently requested utterance; the at-most-one-alive-worker invariant
holds provided every bounded join completes within its timeout, i.e. along
any schedule whose `speak`/`stop_audio` joins all succeed, starting from a
state with no orphaned worker. -/
theorem C3_at_most_one_worker_when_joins_complete (st : TTSState)
    (ops : List TTSOp) (hops : ∀ op ∈ ops, joinOkOf op = true)
    (h0 : st.orphans = []) :
    (runTTS st ops).orphans = []
    ∧ aliveWorkers (runTTS st ops) ≤ 1
    ∧ (∀ text chunks joinOk, st.pipeline_init = true →
        (speak st text chunks joinOk).1.current = some (text, chunks)
        ∧ (speak st text chunks joinOk).2 = true) := by
  have hnil : ∀ sts : TTSState, ∀ l : List TTSOp,
      (∀ op ∈ l, joinOkOf op = true) → sts.orphans = [] →
      (runTTS sts l).orphans = [] := by
    intro sts l
    induction l generalizing sts with
    | nil => intro _ h; exact h
    | cons op rest ih =>
        intro hl h
        exact ih (ttsStep sts op) (fun o ho => hl o (List.mem_cons_of_mem op ho))
          (ttsStep_orphans_nil sts op (hl op (List.mem_cons_self op rest)) h)
  refine ⟨hnil st ops hops h0, aliveWorkers_le_one _ (hnil st ops hops h0), ?_⟩
  intro text chunks joinOk hp
  constructor
  · simp [speak, hp]
  · simp [speak, hp]

/-- C3 witness: two consecutive `speak` calls whose joins complete leave a
single alive worker, playing the most recent utterance. -/
theorem C3_witness :
    (runTTS ttsInit [TTSOp.speakCall "A" 2 true, TTSOp.speakCall "B" 2 true]).orphans = []
    ∧ aliveWorkers (runTTS ttsInit
        [TTSOp.speakCall "A" 2 true, TTSOp.speakCall "B" 2 true]) ≤ 1
    ∧ (speak ttsInit "A" 2 true).1.current = some ("A", 2) := by
  have h := C3_at_most_one_worker_when_joins_complete ttsInit
    [TTSOp.speakCall "A" 2 true, TTSOp.speakCall "B" 2 true] (by decide) rfl
  exact ⟨h.1, h.2.1, (h.2.2 "A" 2 true rfl).1⟩

/-- C10: calling `generate_feedback_json` before `update_context` has ever
run (so `chat_session` is still unset, as in the freshly constructed agent)
returns exactly the fixed error string and performs no model call;
`update_context` is the only operation that sets `chat_session`. -/
theorem C10_feedback_requires_context
    (generate_content : String → Option String → Except String FeedbackScore)
    (st : FeedbackAgentState) (h : st.chat_session = false) :
    generate_feedback_json generate_content st =
      ("Error: Context not initialized. Please call update_context first.", 0)
    ∧ initialFeedbackAgent.chat_session = false
    ∧ (∀ st2 : FeedbackAgentState, ∀ d : Option String, ∀ ch fc : String,
        (update_context st2 d ch fc).chat_session = true) := by
  refine ⟨?_, rfl, fun st2 d ch fc => rfl⟩
  simp [generate_feedback_json, h]

/-- C10 witness: the freshly constructed feedback agent with a concrete
structured-model client. -/
theorem C10_witness :
    generate_feedback_json (fun _ _ => Except.error "ignored") initialFeedbackAgent =
      ("Error: Context not initialized. Please call update_context first.", 0) :=
  (C10_feedback_requires_context (fun _ _ => Except.error "ignored")
    initialFeedbackAgent rfl).1
